import Mathlib

/-!
Verification of the Local Data Store of the RedCar workshop-management app
(`providers/data-provider.tsx` and `types/entities.ts`).

The store holds five in-memory collections (parts, revisions, team members,
clients, suppliers), loads them from a key-value storage at startup (seeding
defaults when a key is absent), and exposes per-entity create/update/delete
operations that prepend, map-replace, and filter the in-memory list.

Modelling conventions:
* TypeScript string fields become `String`; `number` fields become `Rat`
  (JavaScript numbers; the store performs no arithmetic on them);
  string-literal union types (`category`, `status`, ...) are `String`,
  since the runtime stores and reloads them verbatim with no validation;
  optional fields (`assignedTo?`, `notes?`, ...) become `Option String`.
* `generateId()` and `nowIso()` are environment calls; the operations take
  the generated id / timestamp as explicit parameters.
* Object spread is translated by computing the final value of every field
  according to the source's spread order.
-/

set_option autoImplicit false

namespace RedCar

/-- `Part` from `types/entities.ts`. `category` ranges over the literals
Mecanica / Eletrica / Suspensao / Lataria / Outros. -/
structure Part where
  id : String
  name : String
  code : String
  quantity : Rat
  minStock : Rat
  location : String
  supplier : String
  category : String
  unitCost : Rat
  updatedAt : String
deriving DecidableEq, Repr

/-- `Revision` from `types/entities.ts`. `status` ranges over
agendada / em andamento / concluida, `priority` over alta / media / baixa. -/
structure Revision where
  id : String
  clientName : String
  clientPhone : String
  vehicleModel : String
  licensePlate : String
  serviceDescription : String
  scheduledDate : String
  scheduledTime : String
  status : String
  priority : String
  assignedTo : Option String
  notes : Option String
  remindersEnabled : Bool
deriving DecidableEq, Repr

/-- `TeamMember` from `types/entities.ts`. `role` ranges over Mecanico /
Eletricista / Diagnostico / Pintor / Atendimento, `expertiseLevel` over
Junior / Pleno / Senior. -/
structure TeamMember where
  id : String
  name : String
  role : String
  phone : String
  email : String
  active : Bool
  expertiseLevel : String
  certificationExpiry : String
  hiredAt : String
deriving DecidableEq, Repr

/-- `Client` from `types/entities.ts`. `tier` ranges over Standard / Gold /
Platinum. -/
structure Client where
  id : String
  name : String
  phone : String
  email : String
  vehicle : String
  licensePlate : String
  lastVisit : String
  tier : String
  preferredAdvisor : Option String
  active : Bool
  notes : Option String
deriving DecidableEq, Repr

/-- `Supplier` from `types/entities.ts`. -/
structure Supplier where
  id : String
  company : String
  contactName : String
  phone : String
  email : String
  category : String
  leadTimeDays : Rat
  preferred : Bool
  rating : Rat
  lastOrderDate : String
deriving DecidableEq, Repr

/-! ### Mutation inputs

`createPart` takes `Omit<Part, 'id' | 'updatedAt'>`; `updatePart` takes
`Omit<Part, 'id'>` (it does carry an `updatedAt` field, which the store
overrides).  For the other four entities both create and update take
`Omit<T, 'id'>`. -/

/-- `Omit<Part, 'id' | 'updatedAt'>`. -/
structure PartCreateInput where
  name : String
  code : String
  quantity : Rat
  minStock : Rat
  location : String
  supplier : String
  category : String
  unitCost : Rat
deriving DecidableEq, Repr

/-- `Omit<Part, 'id'>`. -/
structure PartUpdateInput where
  name : String
  code : String
  quantity : Rat
  minStock : Rat
  location : String
  supplier : String
  category : String
  unitCost : Rat
  updatedAt : String
deriving DecidableEq, Repr

/-- `Omit<Revision, 'id'>`. -/
structure RevisionInput where
  clientName : String
  clientPhone : String
  vehicleModel : String
  licensePlate : String
  serviceDescription : String
  scheduledDate : String
  scheduledTime : String
  status : String
  priority : String
  assignedTo : Option String
  notes : Option String
  remindersEnabled : Bool
deriving DecidableEq, Repr

/-- `Omit<TeamMember, 'id'>`. -/
structure TeamMemberInput where
  name : String
  role : String
  phone : String
  email : String
  active : Bool
  expertiseLevel : String
  certificationExpiry : String
  hiredAt : String
deriving DecidableEq, Repr

/-- `Omit<Client, 'id'>`. -/
structure ClientInput where
  name : String
  phone : String
  email : String
  vehicle : String
  licensePlate : String
  lastVisit : String
  tier : String
  preferredAdvisor : Option String
  active : Bool
  notes : Option String
deriving DecidableEq, Repr

/-- `Omit<Supplier, 'id'>`. -/
structure SupplierInput where
  company : String
  contactName : String
  phone : String
  email : String
  category : String
  leadTimeDays : Rat
  preferred : Bool
  rating : Rat
  lastOrderDate : String
deriving DecidableEq, Repr

/-! ### Store mutations (`data-provider.tsx`, lines 299-410)

Each mutation is the pure state-updater function passed to the React state
setter.  `freshId` is the value of the `generateId()` call and `now` the
value of the `nowIso()` call made inside the updater. -/

/-- `createPart`: `setParts(previous => [{ id: generateId(), updatedAt: nowIso(), ...input }, ...previous])`.
The input's type has no `id`/`updatedAt` key, so the spread adds the
remaining eight fields. -/
def createPart (freshId now : String) (input : PartCreateInput)
    (previous : List Part) : List Part :=
  { id := freshId, name := input.name, code := input.code,
    quantity := input.quantity, minStock := input.minStock,
    location := input.location, supplier := input.supplier,
    category := input.category, unitCost := input.unitCost,
    updatedAt := now } :: previous

/-- `updatePart`: maps each `item` to
`{ ...item, ...input, updatedAt: nowIso(), id }` when `item.id === id`.
Spread order: `input` overrides every non-`id` field of `item` (including
`updatedAt`), then `updatedAt: nowIso()` overrides `input.updatedAt`, and
`id` (the argument, equal to `item.id` in this branch) is written last. -/
def updatePart (now id : String) (input : PartUpdateInput)
    (previous : List Part) : List Part :=
  previous.map fun item =>
    if item.id = id then
      { id := id, name := input.name, code := input.code,
        quantity := input.quantity, minStock := input.minStock,
        location := input.location, supplier := input.supplier,
        category := input.category, unitCost := input.unitCost,
        updatedAt := now }
    else item

/-- `deletePart`: `setParts(previous => previous.filter(item => item.id !== id))`. -/
def deletePart (id : String) (previous : List Part) : List Part :=
  previous.filter fun item => item.id != id

/-- `createRevision`: `[{ id: generateId(), ...input }, ...previous]`. -/
def createRevision (freshId : String) (input : RevisionInput)
    (previous : List Revision) : List Revision :=
  { id := freshId, clientName := input.clientName,
    clientPhone := input.clientPhone, vehicleModel := input.vehicleModel,
    licensePlate := input.licensePlate,
    serviceDescription := input.serviceDescription,
    scheduledDate := input.scheduledDate,
    scheduledTime := input.scheduledTime, status := input.status,
    priority := input.priority, assignedTo := input.assignedTo,
    notes := input.notes,
    remindersEnabled := input.remindersEnabled } :: previous

/-- `updateRevision`: maps matching items to `{ ...item, ...input, id }`. -/
def updateRevision (id : String) (input : RevisionInput)
    (previous : List Revision) : List Revision :=
  previous.map fun item =>
    if item.id = id then
      { id := id, clientName := input.clientName,
        clientPhone := input.clientPhone,
        vehicleModel := input.vehicleModel,
        licensePlate := input.licensePlate,
        serviceDescription := input.serviceDescription,
        scheduledDate := input.scheduledDate,
        scheduledTime := input.scheduledTime, status := input.status,
        priority := input.priority, assignedTo := input.assignedTo,
        notes := input.notes,
        remindersEnabled := input.remindersEnabled }
    else item

/-- `deleteRevision`: `previous.filter(item => item.id !== id)` (the logging
around the filter is diagnostic only). -/
def deleteRevision (id : String) (previous : List Revision) : List Revision :=
  previous.filter fun item => item.id != id

/-- `createTeamMember`: `[{ id: generateId(), ...input }, ...previous]`. -/
def createTeamMember (freshId : String) (input : TeamMemberInput)
    (previous : List TeamMember) : List TeamMember :=
  { id := freshId, name := input.name, role := input.role,
    phone := input.phone, email := input.email, active := input.active,
    expertiseLevel := input.expertiseLevel,
    certificationExpiry := input.certificationExpiry,
    hiredAt := input.hiredAt } :: previous

/-- `updateTeamMember`: maps matching items to `{ ...item, ...input, id }`. -/
def updateTeamMember (id : String) (input : TeamMemberInput)
    (previous : List TeamMember) : List TeamMember :=
  previous.map fun item =>
    if item.id = id then
      { id := id, name := input.name, role := input.role,
        phone := input.phone, email := input.email,
        active := input.active, expertiseLevel := input.expertiseLevel,
        certificationExpiry := input.certificationExpiry,
        hiredAt := input.hiredAt }
    else item

/-- `deleteTeamMember`: `previous.filter(item => item.id !== id)`. -/
def deleteTeamMember (id : String) (previous : List TeamMember) :
    List TeamMember :=
  previous.filter fun item => item.id != id

/-- `createClient`: `[{ id: generateId(), ...input }, ...previous]`. -/
def createClient (freshId : String) (input : ClientInput)
    (previous : List Client) : List Client :=
  { id := freshId, name := input.name, phone := input.phone,
    email := input.email, vehicle := input.vehicle,
    licensePlate := input.licensePlate, lastVisit := input.lastVisit,
    tier := input.tier, preferredAdvisor := input.preferredAdvisor,
    active := input.active, notes := input.notes } :: previous

/-- `updateClient`: maps matching items to `{ ...item, ...input, id }`. -/
def updateClient (id : String) (input : ClientInput)
    (previous : List Client) : List Client :=
  previous.map fun item =>
    if item.id = id then
      { id := id, name := input.name, phone := input.phone,
        email := input.email, vehicle := input.vehicle,
        licensePlate := input.licensePlate, lastVisit := input.lastVisit,
        tier := input.tier, preferredAdvisor := input.preferredAdvisor,
        active := input.active, notes := input.notes }
    else item

/-- `deleteClient`: `previous.filter(item => item.id !== id)`. -/
def deleteClient (id : String) (previous : List Client) : List Client :=
  previous.filter fun item => item.id != id

/-- `createSupplier`: `[{ id: generateId(), ...input }, ...previous]`. -/
def createSupplier (freshId : String) (input : SupplierInput)
    (previous : List Supplier) : List Supplier :=
  { id := freshId, company := input.company,
    contactName := input.contactName, phone := input.phone,
    email := input.email, category := input.category,
    leadTimeDays := input.leadTimeDays, preferred := input.preferred,
    rating := input.rating, lastOrderDate := input.lastOrderDate } :: previous

/-- `updateSupplier`: maps matching items to `{ ...item, ...input, id }`. -/
def updateSupplier (id : String) (input : SupplierInput)
    (previous : List Supplier) : List Supplier :=
  previous.map fun item =>
    if item.id = id then
      { id := id, company := input.company,
        contactName := input.contactName, phone := input.phone,
        email := input.email, category := input.category,
        leadTimeDays := input.leadTimeDays, preferred := input.preferred,
        rating := input.rating, lastOrderDate := input.lastOrderDate }
    else item

/-- `deleteSupplier`: `previous.filter(item => item.id !== id)`. -/
def deleteSupplier (id : String) (previous : List Supplier) : List Supplier :=
  previous.filter fun item => item.id != id

/-! ### Persistent storage (`loadCollection` / `persistCollection`)

`AsyncStorage` maps each collection key to a JSON string.  The model
quotients that string by what the store's unchecked-cast code
(`JSON.parse(raw) as T[]`) observes: the key is absent, or the stored text
cannot be read or parsed (`AsyncStorage.getItem` or `JSON.parse` throws),
or it denotes a sequence of records of the collection's type, which the
store uses verbatim (no validation).  The textual JSON layer itself is
modelled separately by the `Json` encoders below. -/

/-- The state of one `AsyncStorage` key. -/
inductive Cell (T : Type) where
  /-- `AsyncStorage.getItem` returns `null`. -/
  | absent : Cell T
  /-- Reading or parsing the stored text throws. -/
  | corrupt : Cell T
  /-- A readable JSON text denoting this sequence of records. -/
  | stored (records : List T) : Cell T
deriving DecidableEq, Repr

/-- `loadCollection(key, fallback)` (lines 210-226), as a function from the
key's cell to the returned in-memory list and the cell afterwards:
absent key writes and returns the fallback; a read/parse failure is caught
and the fallback returned with storage untouched; a stored value is parsed
and used verbatim.  The function is total: no branch throws. -/
def loadCollection {T : Type} (cell : Cell T) (fallback : List T) :
    List T × Cell T :=
  match cell with
  | .absent => (fallback, .stored fallback)
  | .corrupt => (fallback, .corrupt)
  | .stored records => (records, .stored records)

/-- `persistCollection(key, value)` (lines 228-236): overwrites the key with
the serialized collection.  (A thrown write is caught and ignored; the
success case is modelled.) -/
def persistCollection {T : Type} (value : List T) : Cell T :=
  .stored value

/-! ### Seed data (`defaultTeam`, `defaultParts`, lines 55-105)

The seed records are module-level constants whose `id` fields come from
`generateId()` and whose relative timestamps come from `Date.now()`; those
environment-produced strings are parameters here.  All other fields are the
source literals (`new Date('2020-03-10').toISOString()` etc. are constant
and inlined). -/

/-- `defaultTeam`, parameterized by the two generated ids and the two
`Date.now()`-relative certification-expiry timestamps. -/
def defaultTeam (id1 id2 cert1 cert2 : String) : List TeamMember :=
  [{ id := id1, name := "Renato Albuquerque", role := "Mecanico",
     phone := "(11) 95555-2901", email := "renato.albuquerque@redcar.com",
     active := true, expertiseLevel := "Senior",
     certificationExpiry := cert1,
     hiredAt := "2020-03-10T00:00:00.000Z" },
   { id := id2, name := "Isabela Monteiro", role := "Diagnostico",
     phone := "(11) 98888-4412", email := "isabela.monteiro@redcar.com",
     active := true, expertiseLevel := "Pleno",
     certificationExpiry := cert2,
     hiredAt := "2021-08-22T00:00:00.000Z" }]

/-- `defaultParts`, parameterized by the two generated ids and the two
`nowIso()` timestamps. -/
def defaultParts (id1 id2 t1 t2 : String) : List Part :=
  [{ id := id1, name := "Filtro de oleo sintetico", code := "RC-FO-900",
     quantity := 18, minStock := 6, location := "Corredor B2",
     supplier := "Mann-Filter", category := "Mecanica",
     unitCost := (389 : Rat) / 10, updatedAt := t1 },
   { id := id2, name := "Pastilha de freio ceramica", code := "RC-PF-320",
     quantity := 8, minStock := 12, location := "Corredor A1",
     supplier := "Bosch", category := "Suspensao",
     unitCost := (1264 : Rat) / 10, updatedAt := t2 }]

/-! ### JSON marshalling

`persistCollection` stores `JSON.stringify(value)` and `loadCollection`
reads it back with `JSON.parse`.  Both are platform primitives, modelled
here at the level of JSON values: `Json` is the parse tree, the encoders
below are what `JSON.stringify` observes of each record (property order as
in the record type; properties holding `undefined` — the `none` case of
optional fields — are omitted, as `JSON.stringify` does), and the decoders
read the same fields back out of a parsed value. -/

/-- A JSON value. -/
inductive Json where
  | str (s : String) : Json
  | num (q : Rat) : Json
  | jbool (b : Bool) : Json
  | null : Json
  | arr (elems : List Json) : Json
  | obj (members : List (String × Json)) : Json

/-- First member of a JSON object with the given key. -/
def lookupMember : List (String × Json) → String → Option Json
  | [], _ => none
  | (k, v) :: rest, key => if k = key then some v else lookupMember rest key

/-- Field access on a JSON value. -/
def Json.getField : Json → String → Option Json
  | .obj members, key => lookupMember members key
  | _, _ => none

/-- Expect a JSON string. -/
def Json.asString : Json → Option String
  | .str s => some s
  | _ => none

/-- Expect a JSON number. -/
def Json.asNum : Json → Option Rat
  | .num q => some q
  | _ => none

/-- Expect a JSON boolean. -/
def Json.asBool : Json → Option Bool
  | .jbool b => some b
  | _ => none

/-- Required string field. -/
def getStr (j : Json) (key : String) : Option String :=
  (j.getField key).bind Json.asString

/-- Required number field. -/
def getNum (j : Json) (key : String) : Option Rat :=
  (j.getField key).bind Json.asNum

/-- Required boolean field. -/
def getBool (j : Json) (key : String) : Option Bool :=
  (j.getField key).bind Json.asBool

/-- Optional string field: a missing key is `none`, not a failure. -/
def getOptStr (j : Json) (key : String) : Option (Option String) :=
  match j.getField key with
  | none => some none
  | some v => (Json.asString v).map some

/-- An optional property: omitted entirely when the value is `undefined`. -/
def encOptStr (key : String) : Option String → List (String × Json)
  | some s => [(key, .str s)]
  | none => []

/-- `JSON.stringify` view of a `Part`. -/
def encPart (p : Part) : Json :=
  .obj [("id", .str p.id), ("name", .str p.name), ("code", .str p.code),
        ("quantity", .num p.quantity), ("minStock", .num p.minStock),
        ("location", .str p.location), ("supplier", .str p.supplier),
        ("category", .str p.category), ("unitCost", .num p.unitCost),
        ("updatedAt", .str p.updatedAt)]

/-- Reading a `Part` back from a parsed JSON value. -/
def decPart (j : Json) : Option Part := do
  let id ← getStr j "id"
  let name ← getStr j "name"
  let code ← getStr j "code"
  let quantity ← getNum j "quantity"
  let minStock ← getNum j "minStock"
  let location ← getStr j "location"
  let supplier ← getStr j "supplier"
  let category ← getStr j "category"
  let unitCost ← getNum j "unitCost"
  let updatedAt ← getStr j "updatedAt"
  pure { id := id, name := name, code := code, quantity := quantity,
         minStock := minStock, location := location, supplier := supplier,
         category := category, unitCost := unitCost,
         updatedAt := updatedAt }

/-- `JSON.stringify` view of a `Revision`. -/
def encRevision (r : Revision) : Json :=
  .obj ([("id", .str r.id), ("clientName", .str r.clientName),
         ("clientPhone", .str r.clientPhone),
         ("vehicleModel", .str r.vehicleModel),
         ("licensePlate", .str r.licensePlate),
         ("serviceDescription", .str r.serviceDescription),
         ("scheduledDate", .str r.scheduledDate),
         ("scheduledTime", .str r.scheduledTime),
         ("status", .str r.status), ("priority", .str r.priority)]
    ++ encOptStr "assignedTo" r.assignedTo
    ++ encOptStr "notes" r.notes
    ++ [("remindersEnabled", .jbool r.remindersEnabled)])

/-- Reading a `Revision` back from a parsed JSON value. -/
def decRevision (j : Json) : Option Revision := do
  let id ← getStr j "id"
  let clientName ← getStr j "clientName"
  let clientPhone ← getStr j "clientPhone"
  let vehicleModel ← getStr j "vehicleModel"
  let licensePlate ← getStr j "licensePlate"
  let serviceDescription ← getStr j "serviceDescription"
  let scheduledDate ← getStr j "scheduledDate"
  let scheduledTime ← getStr j "scheduledTime"
  let status ← getStr j "status"
  let priority ← getStr j "priority"
  let assignedTo ← getOptStr j "assignedTo"
  let notes ← getOptStr j "notes"
  let remindersEnabled ← getBool j "remindersEnabled"
  pure { id := id, clientName := clientName, clientPhone := clientPhone,
         vehicleModel := vehicleModel, licensePlate := licensePlate,
         serviceDescription := serviceDescription,
         scheduledDate := scheduledDate, scheduledTime := scheduledTime,
         status := status, priority := priority, assignedTo := assignedTo,
         notes := notes, remindersEnabled := remindersEnabled }

/-- `JSON.stringify` view of a `TeamMember`. -/
def encTeamMember (t : TeamMember) : Json :=
  .obj [("id", .str t.id), ("name", .str t.name), ("role", .str t.role),
        ("phone", .str t.phone), ("email", .str t.email),
        ("active", .jbool t.active),
        ("expertiseLevel", .str t.expertiseLevel),
        ("certificationExpiry", .str t.certificationExpiry),
        ("hiredAt", .str t.hiredAt)]

/-- Reading a `TeamMember` back from a parsed JSON value. -/
def decTeamMember (j : Json) : Option TeamMember := do
  let id ← getStr j "id"
  let name ← getStr j "name"
  let role ← getStr j "role"
  let phone ← getStr j "phone"
  let email ← getStr j "email"
  let active ← getBool j "active"
  let expertiseLevel ← getStr j "expertiseLevel"
  let certificationExpiry ← getStr j "certificationExpiry"
  let hiredAt ← getStr j "hiredAt"
  pure { id := id, name := name, role := role, phone := phone,
         email := email, active := active,
         expertiseLevel := expertiseLevel,
         certificationExpiry := certificationExpiry, hiredAt := hiredAt }

/-- `JSON.stringify` view of a `Client`. -/
def encClient (c : Client) : Json :=
  .obj ([("id", .str c.id), ("name", .str c.name),
         ("phone", .str c.phone), ("email", .str c.email),
         ("vehicle", .str c.vehicle),
         ("licensePlate", .str c.licensePlate),
         ("lastVisit", .str c.lastVisit), ("tier", .str c.tier)]
    ++ encOptStr "preferredAdvisor" c.preferredAdvisor
    ++ [("active", .jbool c.active)]
    ++ encOptStr "notes" c.notes)

/-- Reading a `Client` back from a parsed JSON value. -/
def decClient (j : Json) : Option Client := do
  let id ← getStr j "id"
  let name ← getStr j "name"
  let phone ← getStr j "phone"
  let email ← getStr j "email"
  let vehicle ← getStr j "vehicle"
  let licensePlate ← getStr j "licensePlate"
  let lastVisit ← getStr j "lastVisit"
  let tier ← getStr j "tier"
  let preferredAdvisor ← getOptStr j "preferredAdvisor"
  let active ← getBool j "active"
  let notes ← getOptStr j "notes"
  pure { id := id, name := name, phone := phone, email := email,
         vehicle := vehicle, licensePlate := licensePlate,
         lastVisit := lastVisit, tier := tier,
         preferredAdvisor := preferredAdvisor, active := active,
         notes := notes }

/-- `JSON.stringify` view of a `Supplier`. -/
def encSupplier (s : Supplier) : Json :=
  .obj [("id", .str s.id), ("company", .str s.company),
        ("contactName", .str s.contactName), ("phone", .str s.phone),
        ("email", .str s.email), ("category", .str s.category),
        ("leadTimeDays", .num s.leadTimeDays),
        ("preferred", .jbool s.preferred), ("rating", .num s.rating),
        ("lastOrderDate", .str s.lastOrderDate)]

/-- Reading a `Supplier` back from a parsed JSON value. -/
def decSupplier (j : Json) : Option Supplier := do
  let id ← getStr j "id"
  let company ← getStr j "company"
  let contactName ← getStr j "contactName"
  let phone ← getStr j "phone"
  let email ← getStr j "email"
  let category ← getStr j "category"
  let leadTimeDays ← getNum j "leadTimeDays"
  let preferred ← getBool j "preferred"
  let rating ← getNum j "rating"
  let lastOrderDate ← getStr j "lastOrderDate"
  pure { id := id, company := company, contactName := contactName,
         phone := phone, email := email, category := category,
         leadTimeDays := leadTimeDays, preferred := preferred,
         rating := rating, lastOrderDate := lastOrderDate }

/-- A collection is serialized as the JSON array of its encoded records. -/
def encList {T : Type} (enc : T → Json) (l : List T) : Json :=
  .arr (l.map enc)

/-- Elementwise decoding of a parsed JSON array. -/
def decodeAll {T : Type} (dec : Json → Option T) : List Json → Option (List T)
  | [] => some []
  | j :: rest => do
      let x ← dec j
      let xs ← decodeAll dec rest
      pure (x :: xs)

/-- Reading a collection back from a parsed JSON value. -/
def decList {T : Type} (dec : Json → Option T) : Json → Option (List T)
  | .arr elems => decodeAll dec elems
  | _ => none

/-! ### Mutation step relations

One step is one state-updater application, i.e. one call of a store
operation on the current in-memory list.  The `create` steps carry the
assumption that `generateId()` produced a value not already used in the
collection (the claim's "identity generation producing fresh values").
Reachability is the reflexive-transitive closure. -/

/-- One mutation of the parts collection. -/
inductive PartStep : List Part → List Part → Prop
  | create (s : List Part) (freshId now : String) (input : PartCreateInput)
      (fresh : freshId ∉ s.map Part.id) :
      PartStep s (createPart freshId now input s)
  | update (s : List Part) (now id : String) (input : PartUpdateInput) :
      PartStep s (updatePart now id input s)
  | delete (s : List Part) (id : String) :
      PartStep s (deletePart id s)

/-- One mutation of the revisions collection. -/
inductive RevisionStep : List Revision → List Revision → Prop
  | create (s : List Revision) (freshId : String) (input : RevisionInput)
      (fresh : freshId ∉ s.map Revision.id) :
      RevisionStep s (createRevision freshId input s)
  | update (s : List Revision) (id : String) (input : RevisionInput) :
      RevisionStep s (updateRevision id input s)
  | delete (s : List Revision) (id : String) :
      RevisionStep s (deleteRevision id s)

/-- One mutation of the team collection. -/
inductive TeamMemberStep : List TeamMember → List TeamMember → Prop
  | create (s : List TeamMember) (freshId : String) (input : TeamMemberInput)
      (fresh : freshId ∉ s.map TeamMember.id) :
      TeamMemberStep s (createTeamMember freshId input s)
  | update (s : List TeamMember) (id : String) (input : TeamMemberInput) :
      TeamMemberStep s (updateTeamMember id input s)
  | delete (s : List TeamMember) (id : String) :
      TeamMemberStep s (deleteTeamMember id s)

/-- One mutation of the clients collection. -/
inductive ClientStep : List Client → List Client → Prop
  | create (s : List Client) (freshId : String) (input : ClientInput)
      (fresh : freshId ∉ s.map Client.id) :
      ClientStep s (createClient freshId input s)
  | update (s : List Client) (id : String) (input : ClientInput) :
      ClientStep s (updateClient id input s)
  | delete (s : List Client) (id : String) :
      ClientStep s (deleteClient id s)

/-- One mutation of the suppliers collection. -/
inductive SupplierStep : List Supplier → List Supplier → Prop
  | create (s : List Supplier) (freshId : String) (input : SupplierInput)
      (fresh : freshId ∉ s.map Supplier.id) :
      SupplierStep s (createSupplier freshId input s)
  | update (s : List Supplier) (id : String) (input : SupplierInput) :
      SupplierStep s (updateSupplier id input s)
  | delete (s : List Supplier) (id : String) :
      SupplierStep s (deleteSupplier id s)

/-! ### Provider startup (`DataProvider`, lines 238-266)

The provider state is the six `useState` values.  The bootstrap effect
awaits the five concurrent loads and then runs a continuation performing
the six state updates in source order (`setParts`, `setRevisions`,
`setTeam`, `setClients`, `setSuppliers`, `setIsReady(true)`).  React
batches the updates of one continuation into a single commit, so the
states visible to consumers are the initial state and the state after the
whole continuation; `bootStateAfter n` additionally exposes the state
after the first `n` individual updates of the continuation. -/

/-- The six `useState` values of `DataProvider`. -/
structure ProviderState where
  isReady : Bool
  parts : List Part
  revisions : List Revision
  team : List TeamMember
  clients : List Client
  suppliers : List Supplier
deriving DecidableEq, Repr

/-- Initial state: `useState(false)` and five `useState([])`. -/
def initialState : ProviderState :=
  { isReady := false, parts := [], revisions := [], team := [],
    clients := [], suppliers := [] }

/-- The six state updates of the bootstrap continuation, in source order,
applied to the load results `lp`, `lr`, `lt`, `lc`, `ls`. -/
def bootUpdates (lp : List Part) (lr : List Revision) (lt : List TeamMember)
    (lc : List Client) (ls : List Supplier) :
    List (ProviderState → ProviderState) :=
  [fun s => { s with parts := lp },
   fun s => { s with revisions := lr },
   fun s => { s with team := lt },
   fun s => { s with clients := lc },
   fun s => { s with suppliers := ls },
   fun s => { s with isReady := true }]

/-- State after the first `n` updates of the bootstrap continuation. -/
def bootStateAfter (lp : List Part) (lr : List Revision)
    (lt : List TeamMember) (lc : List Client) (ls : List Supplier)
    (n : Nat) : ProviderState :=
  ((bootUpdates lp lr lt lc ls).take n).foldl (fun s f => f s) initialState

/-! ### Sample records (concrete instantiations of the theorems) -/

/-- A sample stored part with identity "a". -/
def samplePartA : Part :=
  { id := "a", name := "Filtro de ar", code := "RC-FA-100", quantity := 5,
    minStock := 10, location := "Corredor B2", supplier := "Mann-Filter",
    category := "Mecanica", unitCost := 10,
    updatedAt := "2024-01-01T00:00:00.000Z" }

/-- A second part sharing identity "a" (as a verbatim-loaded store allows). -/
def samplePartA2 : Part :=
  { samplePartA with name := "Filtro duplicado", code := "RC-FA-101" }

/-- A sample stored part with identity "b". -/
def samplePartB : Part :=
  { samplePartA with
      id := "b", name := "Pastilha de freio", code := "RC-PF-200" }

/-- A sample `Omit<Part, 'id'>` payload; its `updatedAt` is a stale value,
as the parts screen passes `{ ...payload, updatedAt: editingPart.updatedAt }`. -/
def samplePartUpdateInput : PartUpdateInput :=
  { name := "Filtro novo", code := "RC-FA-102", quantity := 6, minStock := 4,
    location := "Corredor A1", supplier := "Bosch", category := "Eletrica",
    unitCost := 12, updatedAt := "1999-01-01T00:00:00.000Z" }

/-- A sample `Omit<Part, 'id' | 'updatedAt'>` payload. -/
def samplePartCreateInput : PartCreateInput :=
  { name := "Correia dentada", code := "RC-CD-300", quantity := 3,
    minStock := 2, location := "Corredor C1", supplier := "Gates",
    category := "Mecanica", unitCost := 80 }

/-! ### Helper lemmas -/

/-- A map whose function fixes every element of the list is the identity. -/
theorem map_eq_self_of_mem {α : Type} {l : List α} {f : α → α}
    (h : ∀ x ∈ l, f x = x) : l.map f = l := by
  induction l with
  | nil => rfl
  | cons a t ih => simp_all

/-- Length of an identity-filter in terms of the number of matches. -/
theorem length_filter_ne_eq {α : Type} (idOf : α → String) (id : String)
    (l : List α) :
    (l.filter fun a => idOf a != id).length
      = l.length - l.countP (fun a => idOf a == id) := by
  induction l with
  | nil => rfl
  | cons a t ih =>
    have hle := List.countP_le_length (p := fun a => idOf a == id) (l := t)
    by_cases h : idOf a = id
    · simp [List.countP_cons, h, ih]
    · simp [List.countP_cons, h, ih]
      omega

/-- Filtering away an identity nobody has is the identity. -/
theorem filter_ne_eq_self {α : Type} (idOf : α → String) (id : String)
    (l : List α) (h : ∀ a ∈ l, idOf a ≠ id) :
    (l.filter fun a => idOf a != id) = l := by
  rw [List.filter_eq_self]
  intro a ha
  simpa using h a ha

/-- Nobody in an identity-filtered list has the filtered identity. -/
theorem not_mem_filter_ne {α : Type} (idOf : α → String) (id : String)
    (l : List α) : ∀ r ∈ (l.filter fun a => idOf a != id), idOf r ≠ id := by
  intro r hr
  have := (List.mem_filter.mp hr).2
  simpa using this

/-- Elementwise decoding inverts elementwise encoding. -/
theorem decodeAll_map_enc {T : Type} {enc : T → Json} {dec : Json → Option T}
    (h : ∀ x, dec (enc x) = some x) (l : List T) :
    decodeAll dec (l.map enc) = some l := by
  induction l with
  | nil => rfl
  | cons a t ih => simp [decodeAll, h, ih]

/-- `updatePart` preserves the sequence of identities. -/
theorem updatePart_map_id (now id : String) (input : PartUpdateInput)
    (s : List Part) : (updatePart now id input s).map Part.id = s.map Part.id := by
  unfold updatePart
  rw [List.map_map]
  apply List.map_congr_left
  intro a _
  by_cases h : a.id = id <;> simp [h]

/-- `updateRevision` preserves the sequence of identities. -/
theorem updateRevision_map_id (id : String) (input : RevisionInput)
    (s : List Revision) :
    (updateRevision id input s).map Revision.id = s.map Revision.id := by
  unfold updateRevision
  rw [List.map_map]
  apply List.map_congr_left
  intro a _
  by_cases h : a.id = id <;> simp [h]

/-- `updateTeamMember` preserves the sequence of identities. -/
theorem updateTeamMember_map_id (id : String) (input : TeamMemberInput)
    (s : List TeamMember) :
    (updateTeamMember id input s).map TeamMember.id = s.map TeamMember.id := by
  unfold updateTeamMember
  rw [List.map_map]
  apply List.map_congr_left
  intro a _
  by_cases h : a.id = id <;> simp [h]

/-- `updateClient` preserves the sequence of identities. -/
theorem updateClient_map_id (id : String) (input : ClientInput)
    (s : List Client) :
    (updateClient id input s).map Client.id = s.map Client.id := by
  unfold updateClient
  rw [List.map_map]
  apply List.map_congr_left
  intro a _
  by_cases h : a.id = id <;> simp [h]

/-- `updateSupplier` preserves the sequence of identities. -/
theorem updateSupplier_map_id (id : String) (input : SupplierInput)
    (s : List Supplier) :
    (updateSupplier id input s).map Supplier.id = s.map Supplier.id := by
  unfold updateSupplier
  rw [List.map_map]
  apply List.map_congr_left
  intro a _
  by_cases h : a.id = id <;> simp [h]

/-- One part-collection step keeps the identities duplicate-free. -/
theorem partStep_nodup {s t : List Part} (h : PartStep s t)
    (hn : (s.map Part.id).Nodup) : (t.map Part.id).Nodup := by
  cases h with
  | create freshId now input fresh =>
    exact List.nodup_cons.mpr ⟨fresh, hn⟩
  | update now id input => rwa [updatePart_map_id]
  | delete id =>
    exact hn.sublist (List.Sublist.map _ (List.filter_sublist s))

/-- One revisions-collection step keeps the identities duplicate-free. -/
theorem revisionStep_nodup {s t : List Revision} (h : RevisionStep s t)
    (hn : (s.map Revision.id).Nodup) : (t.map Revision.id).Nodup := by
  cases h with
  | create freshId input fresh =>
    exact List.nodup_cons.mpr ⟨fresh, hn⟩
  | update id input => rwa [updateRevision_map_id]
  | delete id =>
    exact hn.sublist (List.Sublist.map _ (List.filter_sublist s))

/-- One team-collection step keeps the identities duplicate-free. -/
theorem teamMemberStep_nodup {s t : List TeamMember} (h : TeamMemberStep s t)
    (hn : (s.map TeamMember.id).Nodup) : (t.map TeamMember.id).Nodup := by
  cases h with
  | create freshId input fresh =>
    exact List.nodup_cons.mpr ⟨fresh, hn⟩
  | update id input => rwa [updateTeamMember_map_id]
  | delete id =>
    exact hn.sublist (List.Sublist.map _ (List.filter_sublist s))

/-- One clients-collection step keeps the identities duplicate-free. -/
theorem clientStep_nodup {s t : List Client} (h : ClientStep s t)
    (hn : (s.map Client.id).Nodup) : (t.map Client.id).Nodup := by
  cases h with
  | create freshId input fresh =>
    exact List.nodup_cons.mpr ⟨fresh, hn⟩
  | update id input => rwa [updateClient_map_id]
  | delete id =>
    exact hn.sublist (List.Sublist.map _ (List.filter_sublist s))

/-- One suppliers-collection step keeps the identities duplicate-free. -/
theorem supplierStep_nodup {s t : List Supplier} (h : SupplierStep s t)
    (hn : (s.map Supplier.id).Nodup) : (t.map Supplier.id).Nodup := by
  cases h with
  | create freshId input fresh =>
    exact List.nodup_cons.mpr ⟨fresh, hn⟩
  | update id input => rwa [updateSupplier_map_id]
  | delete id =>
    exact hn.sublist (List.Sublist.map _ (List.filter_sublist s))

/-- Per-record roundtrip for `Part`. -/
theorem decPart_encPart (p : Part) : decPart (encPart p) = some p := rfl

/-- Per-record roundtrip for `Revision`. -/
theorem decRevision_encRevision (r : Revision) :
    decRevision (encRevision r) = some r := by
  cases r with
  | mk id clientName clientPhone vehicleModel licensePlate
      serviceDescription scheduledDate scheduledTime status priority
      assignedTo notes remindersEnabled =>
    cases assignedTo <;> cases notes <;> rfl

/-- Per-record roundtrip for `TeamMember`. -/
theorem decTeamMember_encTeamMember (t : TeamMember) :
    decTeamMember (encTeamMember t) = some t := rfl

/-- Per-record roundtrip for `Client`. -/
theorem decClient_encClient (c : Client) :
    decClient (encClient c) = some c := by
  cases c with
  | mk id name phone email vehicle licensePlate lastVisit tier
      preferredAdvisor active notes =>
    cases preferredAdvisor <;> cases notes <;> rfl

/-- Per-record roundtrip for `Supplier`. -/
theorem decSupplier_encSupplier (s : Supplier) :
    decSupplier (encSupplier s) = some s := rfl

/-! ### Claim theorems -/

/-- C1: for every collection, `update(id, input)` on a record whose identity
equals `id` replaces all of the record's fields with the input's fields while
keeping the identity unchanged; for a `Part`, the stored `updatedAt` after
the update is the fresh update-time timestamp `now`, never the
caller-supplied `input.updatedAt` (which `updatePart` accepts and discards). -/
theorem update_replaces_fields_preserves_identity :
    (∀ (now id : String) (input : PartUpdateInput) (previous : List Part)
        (i : Nat) (item : Part), previous[i]? = some item → item.id = id →
      (updatePart now id input previous)[i]? = some
        { id := item.id, name := input.name, code := input.code,
          quantity := input.quantity, minStock := input.minStock,
          location := input.location, supplier := input.supplier,
          category := input.category, unitCost := input.unitCost,
          updatedAt := now })
    ∧ (∀ (id : String) (input : RevisionInput) (previous : List Revision)
        (i : Nat) (item : Revision), previous[i]? = some item → item.id = id →
      (updateRevision id input previous)[i]? = some
        { id := item.id, clientName := input.clientName,
          clientPhone := input.clientPhone,
          vehicleModel := input.vehicleModel,
          licensePlate := input.licensePlate,
          serviceDescription := input.serviceDescription,
          scheduledDate := input.scheduledDate,
          scheduledTime := input.scheduledTime, status := input.status,
          priority := input.priority, assignedTo := input.assignedTo,
          notes := input.notes,
          remindersEnabled := input.remindersEnabled })
    ∧ (∀ (id : String) (input : TeamMemberInput)
        (previous : List TeamMember) (i : Nat) (item : TeamMember),
        previous[i]? = some item → item.id = id →
      (updateTeamMember id input previous)[i]? = some
        { id := item.id, name := input.name, role := input.role,
          phone := input.phone, email := input.email,
          active := input.active, expertiseLevel := input.expertiseLevel,
          certificationExpiry := input.certificationExpiry,
          hiredAt := input.hiredAt })
    ∧ (∀ (id : String) (input : ClientInput) (previous : List Client)
        (i : Nat) (item : Client), previous[i]? = some item → item.id = id →
      (updateClient id input previous)[i]? = some
        { id := item.id, name := input.name, phone := input.phone,
          email := input.email, vehicle := input.vehicle,
          licensePlate := input.licensePlate, lastVisit := input.lastVisit,
          tier := input.tier, preferredAdvisor := input.preferredAdvisor,
          active := input.active, notes := input.notes })
    ∧ (∀ (id : String) (input : SupplierInput) (previous : List Supplier)
        (i : Nat) (item : Supplier), previous[i]? = some item → item.id = id →
      (updateSupplier id input previous)[i]? = some
        { id := item.id, company := input.company,
          contactName := input.contactName, phone := input.phone,
          email := input.email, category := input.category,
          leadTimeDays := input.leadTimeDays, preferred := input.preferred,
          rating := input.rating,
          lastOrderDate := input.lastOrderDate }) := by
  refine ⟨?_, ?_, ?_, ?_, ?_⟩
  · intro now id input previous i item h1 h2
    simp [updatePart, h1, h2]
  · intro id input previous i item h1 h2
    simp [updateRevision, h1, h2]
  · intro id input previous i item h1 h2
    simp [updateTeamMember, h1, h2]
  · intro id input previous i item h1 h2
    simp [updateClient, h1, h2]
  · intro id input previous i item h1 h2
    simp [updateSupplier, h1, h2]

/-- Witness for C1: updating the stored part "a" with a payload carrying the
stale timestamp `1999-01-01...` yields the input's fields under the original
identity with the fresh timestamp `2030-01-01...`. -/
theorem update_replaces_fields_preserves_identity_witness :
    (updatePart "2030-01-01T00:00:00.000Z" "a" samplePartUpdateInput
        [samplePartA])[0]? = some
      { id := samplePartA.id, name := samplePartUpdateInput.name,
        code := samplePartUpdateInput.code,
        quantity := samplePartUpdateInput.quantity,
        minStock := samplePartUpdateInput.minStock,
        location := samplePartUpdateInput.location,
        supplier := samplePartUpdateInput.supplier,
        category := samplePartUpdateInput.category,
        unitCost := samplePartUpdateInput.unitCost,
        updatedAt := "2030-01-01T00:00:00.000Z" } :=
  update_replaces_fields_preserves_identity.1 "2030-01-01T00:00:00.000Z" "a"
    samplePartUpdateInput [samplePartA] 0 samplePartA rfl rfl

/-- C2: for every collection state and input, `create` prepends a single new
record whose fields are the input's fields plus the generated identity (and,
for a `Part`, the fresh timestamp), leaving the prior records unchanged in
their original relative order. -/
theorem create_prepends :
    (∀ (freshId now : String) (input : PartCreateInput)
        (previous : List Part),
      ∃ r : Part, createPart freshId now input previous = r :: previous ∧
        r.id = freshId ∧ r.updatedAt = now ∧ r.name = input.name ∧
        r.code = input.code ∧ r.quantity = input.quantity ∧
        r.minStock = input.minStock ∧ r.location = input.location ∧
        r.supplier = input.supplier ∧ r.category = input.category ∧
        r.unitCost = input.unitCost)
    ∧ (∀ (freshId : String) (input : RevisionInput)
        (previous : List Revision),
      ∃ r : Revision, createRevision freshId input previous = r :: previous ∧
        r.id = freshId ∧ r.clientName = input.clientName ∧
        r.clientPhone = input.clientPhone ∧
        r.vehicleModel = input.vehicleModel ∧
        r.licensePlate = input.licensePlate ∧
        r.serviceDescription = input.serviceDescription ∧
        r.scheduledDate = input.scheduledDate ∧
        r.scheduledTime = input.scheduledTime ∧ r.status = input.status ∧
        r.priority = input.priority ∧ r.assignedTo = input.assignedTo ∧
        r.notes = input.notes ∧
        r.remindersEnabled = input.remindersEnabled)
    ∧ (∀ (freshId : String) (input : TeamMemberInput)
        (previous : List TeamMember),
      ∃ r : TeamMember,
        createTeamMember freshId input previous = r :: previous ∧
        r.id = freshId ∧ r.name = input.name ∧ r.role = input.role ∧
        r.phone = input.phone ∧ r.email = input.email ∧
        r.active = input.active ∧
        r.expertiseLevel = input.expertiseLevel ∧
        r.certificationExpiry = input.certificationExpiry ∧
        r.hiredAt = input.hiredAt)
    ∧ (∀ (freshId : String) (input : ClientInput) (previous : List Client),
      ∃ r : Client, createClient freshId input previous = r :: previous ∧
        r.id = freshId ∧ r.name = input.name ∧ r.phone = input.phone ∧
        r.email = input.email ∧ r.vehicle = input.vehicle ∧
        r.licensePlate = input.licensePlate ∧
        r.lastVisit = input.lastVisit ∧ r.tier = input.tier ∧
        r.preferredAdvisor = input.preferredAdvisor ∧
        r.active = input.active ∧ r.notes = input.notes)
    ∧ (∀ (freshId : String) (input : SupplierInput)
        (previous : List Supplier),
      ∃ r : Supplier, createSupplier freshId input previous = r :: previous ∧
        r.id = freshId ∧ r.company = input.company ∧
        r.contactName = input.contactName ∧ r.phone = input.phone ∧
        r.email = input.email ∧ r.category = input.category ∧
        r.leadTimeDays = input.leadTimeDays ∧
        r.preferred = input.preferred ∧ r.rating = input.rating ∧
        r.lastOrderDate = input.lastOrderDate) := by
  refine ⟨?_, ?_, ?_, ?_, ?_⟩ <;> intros <;> exact ⟨_, rfl, by simp⟩

/-- C3: for every collection holding exactly one record with identity `id`,
`delete(id)` yields a collection of size `n - 1` with no record matching
`id`; for a collection holding no record with identity `id`, `delete(id)`
yields the collection unchanged. -/
theorem delete_removes_one_or_none :
    (∀ (id : String) (previous : List Part),
      (previous.countP (fun r => r.id == id) = 1 →
        (deletePart id previous).length = previous.length - 1 ∧
        ∀ r ∈ deletePart id previous, r.id ≠ id) ∧
      ((∀ r ∈ previous, r.id ≠ id) → deletePart id previous = previous))
    ∧ (∀ (id : String) (previous : List Revision),
      (previous.countP (fun r => r.id == id) = 1 →
        (deleteRevision id previous).length = previous.length - 1 ∧
        ∀ r ∈ deleteRevision id previous, r.id ≠ id) ∧
      ((∀ r ∈ previous, r.id ≠ id) → deleteRevision id previous = previous))
    ∧ (∀ (id : String) (previous : List TeamMember),
      (previous.countP (fun r => r.id == id) = 1 →
        (deleteTeamMember id previous).length = previous.length - 1 ∧
        ∀ r ∈ deleteTeamMember id previous, r.id ≠ id) ∧
      ((∀ r ∈ previous, r.id ≠ id) →
        deleteTeamMember id previous = previous))
    ∧ (∀ (id : String) (previous : List Client),
      (previous.countP (fun r => r.id == id) = 1 →
        (deleteClient id previous).length = previous.length - 1 ∧
        ∀ r ∈ deleteClient id previous, r.id ≠ id) ∧
      ((∀ r ∈ previous, r.id ≠ id) → deleteClient id previous = previous))
    ∧ (∀ (id : String) (previous : List Supplier),
      (previous.countP (fun r => r.id == id) = 1 →
        (deleteSupplier id previous).length = previous.length - 1 ∧
        ∀ r ∈ deleteSupplier id previous, r.id ≠ id) ∧
      ((∀ r ∈ previous, r.id ≠ id) →
        deleteSupplier id previous = previous)) := by
  refine ⟨?_, ?_, ?_, ?_, ?_⟩ <;> intro id previous <;>
    refine ⟨fun hcount => ⟨?_, ?_⟩, fun h => ?_⟩
  case refine_1.refine_1 =>
    unfold deletePart
    rw [length_filter_ne_eq Part.id, hcount]
  case refine_1.refine_2 => exact not_mem_filter_ne Part.id id previous
  case refine_1.refine_3 => exact filter_ne_eq_self Part.id id previous h
  case refine_2.refine_1 =>
    unfold deleteRevision
    rw [length_filter_ne_eq Revision.id, hcount]
  case refine_2.refine_2 => exact not_mem_filter_ne Revision.id id previous
  case refine_2.refine_3 => exact filter_ne_eq_self Revision.id id previous h
  case refine_3.refine_1 =>
    unfold deleteTeamMember
    rw [length_filter_ne_eq TeamMember.id, hcount]
  case refine_3.refine_2 => exact not_mem_filter_ne TeamMember.id id previous
  case refine_3.refine_3 =>
    exact filter_ne_eq_self TeamMember.id id previous h
  case refine_4.refine_1 =>
    unfold deleteClient
    rw [length_filter_ne_eq Client.id, hcount]
  case refine_4.refine_2 => exact not_mem_filter_ne Client.id id previous
  case refine_4.refine_3 => exact filter_ne_eq_self Client.id id previous h
  case refine_5.refine_1 =>
    unfold deleteSupplier
    rw [length_filter_ne_eq Supplier.id, hcount]
  case refine_5.refine_2 => exact not_mem_filter_ne Supplier.id id previous
  case refine_5.refine_3 => exact filter_ne_eq_self Supplier.id id previous h

/-- Witness for C3: deleting identity "a" from a two-part collection holding
exactly one match leaves one part and no record with identity "a". -/
theorem delete_removes_one_or_none_witness :
    (deletePart "a" [samplePartA, samplePartB]).length
      = ([samplePartA, samplePartB] : List Part).length - 1 ∧
    ∀ r ∈ deletePart "a" [samplePartA, samplePartB], r.id ≠ "a" :=
  (delete_removes_one_or_none.1 "a" [samplePartA, samplePartB]).1 (by decide)

/-- C4: for every collection and identity with no matching record, `update`
and `delete` leave the in-memory sequence unchanged; in the model every
store operation is a total function, so none of them signals an error. -/
theorem update_delete_missing_id_noop :
    ∀ id : String,
    (∀ previous : List Part, (∀ r ∈ previous, r.id ≠ id) →
      (∀ (now : String) (input : PartUpdateInput),
        updatePart now id input previous = previous) ∧
      deletePart id previous = previous)
    ∧ (∀ previous : List Revision, (∀ r ∈ previous, r.id ≠ id) →
      (∀ input : RevisionInput,
        updateRevision id input previous = previous) ∧
      deleteRevision id previous = previous)
    ∧ (∀ previous : List TeamMember, (∀ r ∈ previous, r.id ≠ id) →
      (∀ input : TeamMemberInput,
        updateTeamMember id input previous = previous) ∧
      deleteTeamMember id previous = previous)
    ∧ (∀ previous : List Client, (∀ r ∈ previous, r.id ≠ id) →
      (∀ input : ClientInput, updateClient id input previous = previous) ∧
      deleteClient id previous = previous)
    ∧ (∀ previous : List Supplier, (∀ r ∈ previous, r.id ≠ id) →
      (∀ input : SupplierInput,
        updateSupplier id input previous = previous) ∧
      deleteSupplier id previous = previous) := by
  intro id
  refine ⟨fun previous h => ⟨fun now input => ?_, ?_⟩,
    fun previous h => ⟨fun input => ?_, ?_⟩,
    fun previous h => ⟨fun input => ?_, ?_⟩,
    fun previous h => ⟨fun input => ?_, ?_⟩,
    fun previous h => ⟨fun input => ?_, ?_⟩⟩
  case refine_1 =>
    unfold updatePart
    exact map_eq_self_of_mem fun x hx => if_neg (h x hx)
  case refine_2 => exact filter_ne_eq_self Part.id id previous h
  case refine_3 =>
    unfold updateRevision
    exact map_eq_self_of_mem fun x hx => if_neg (h x hx)
  case refine_4 => exact filter_ne_eq_self Revision.id id previous h
  case refine_5 =>
    unfold updateTeamMember
    exact map_eq_self_of_mem fun x hx => if_neg (h x hx)
  case refine_6 => exact filter_ne_eq_self TeamMember.id id previous h
  case refine_7 =>
    unfold updateClient
    exact map_eq_self_of_mem fun x hx => if_neg (h x hx)
  case refine_8 => exact filter_ne_eq_self Client.id id previous h
  case refine_9 =>
    unfold updateSupplier
    exact map_eq_self_of_mem fun x hx => if_neg (h x hx)
  case refine_10 => exact filter_ne_eq_self Supplier.id id previous h

/-- Witness for C4: updating and deleting the unused identity "zzz" leaves
a one-part collection unchanged. -/
theorem update_delete_missing_id_noop_witness :
    updatePart "2030-01-01T00:00:00.000Z" "zzz" samplePartUpdateInput
      [samplePartA] = [samplePartA] ∧
    deletePart "zzz" [samplePartA] = [samplePartA] :=
  ⟨((update_delete_missing_id_noop "zzz").1 [samplePartA] (by decide)).1
      "2030-01-01T00:00:00.000Z" samplePartUpdateInput,
    ((update_delete_missing_id_noop "zzz").1 [samplePartA] (by decide)).2⟩

/-- C10: for every collection state, also one with several records sharing
an identity, `delete(id)` removes every record whose identity equals `id`
and keeps every other record, with multiplicity, in the original relative
order (the result is a sublist of the input). -/
theorem delete_removes_all_matches :
    (∀ (id : String) (previous : List Part),
      (∀ r ∈ deletePart id previous, r.id ≠ id) ∧
      (deletePart id previous).Sublist previous ∧
      ∀ r : Part, r.id ≠ id →
        (deletePart id previous).count r = previous.count r)
    ∧ (∀ (id : String) (previous : List Revision),
      (∀ r ∈ deleteRevision id previous, r.id ≠ id) ∧
      (deleteRevision id previous).Sublist previous ∧
      ∀ r : Revision, r.id ≠ id →
        (deleteRevision id previous).count r = previous.count r)
    ∧ (∀ (id : String) (previous : List TeamMember),
      (∀ r ∈ deleteTeamMember id previous, r.id ≠ id) ∧
      (deleteTeamMember id previous).Sublist previous ∧
      ∀ r : TeamMember, r.id ≠ id →
        (deleteTeamMember id previous).count r = previous.count r)
    ∧ (∀ (id : String) (previous : List Client),
      (∀ r ∈ deleteClient id previous, r.id ≠ id) ∧
      (deleteClient id previous).Sublist previous ∧
      ∀ r : Client, r.id ≠ id →
        (deleteClient id previous).count r = previous.count r)
    ∧ (∀ (id : String) (previous : List Supplier),
      (∀ r ∈ deleteSupplier id previous, r.id ≠ id) ∧
      (deleteSupplier id previous).Sublist previous ∧
      ∀ r : Supplier, r.id ≠ id →
        (deleteSupplier id previous).count r = previous.count r) := by
  refine ⟨?_, ?_, ?_, ?_, ?_⟩ <;> intro id previous <;>
    refine ⟨?_, List.filter_sublist previous, fun r hr => ?_⟩
  case refine_1.refine_1 => exact not_mem_filter_ne Part.id id previous
  case refine_1.refine_2 =>
    exact List.count_filter (by simpa using hr)
  case refine_2.refine_1 => exact not_mem_filter_ne Revision.id id previous
  case refine_2.refine_2 =>
    exact List.count_filter (by simpa using hr)
  case refine_3.refine_1 =>
    exact not_mem_filter_ne TeamMember.id id previous
  case refine_3.refine_2 =>
    exact List.count_filter (by simpa using hr)
  case refine_4.refine_1 => exact not_mem_filter_ne Client.id id previous
  case refine_4.refine_2 =>
    exact List.count_filter (by simpa using hr)
  case refine_5.refine_1 => exact not_mem_filter_ne Supplier.id id previous
  case refine_5.refine_2 =>
    exact List.count_filter (by simpa using hr)

/-- Witness for C10: deleting identity "a" from a collection holding two
distinct records with identity "a" keeps the multiplicity of the record
with identity "b". -/
theorem delete_removes_all_matches_witness :
    (deletePart "a" [samplePartA, samplePartA2, samplePartB]).count
        samplePartB
      = ([samplePartA, samplePartA2, samplePartB] : List Part).count
          samplePartB :=
  (delete_removes_all_matches.1 "a"
    [samplePartA, samplePartA2, samplePartB]).2.2 samplePartB (by decide)

/-- C5: when a collection key holds no stored value at startup, the load
returns exactly the seed list, and afterwards storage holds that same seed
list; in particular, with empty storage the team collection is exactly the
two seeded members named "Renato Albuquerque" and "Isabela Monteiro". -/
theorem seed_on_absent_key :
    (∀ (T : Type) (fallback : List T),
      loadCollection Cell.absent fallback = (fallback, Cell.stored fallback))
    ∧ (∀ id1 id2 cert1 cert2 : String,
      (loadCollection Cell.absent (defaultTeam id1 id2 cert1 cert2)).1
        = defaultTeam id1 id2 cert1 cert2 ∧
      (loadCollection Cell.absent (defaultTeam id1 id2 cert1 cert2)).1.map
          TeamMember.name
        = ["Renato Albuquerque", "Isabela Monteiro"] ∧
      (loadCollection Cell.absent (defaultTeam id1 id2 cert1 cert2)).2
        = Cell.stored (defaultTeam id1 id2 cert1 cert2)) :=
  ⟨fun _ _ => rfl, fun _ _ _ _ => ⟨rfl, rfl, rfl⟩⟩

/-- C6: when the stored value of a key exists but the read or parse throws
at startup, the load returns the seed records, the failure is swallowed
(the model's load is a total function), and the key's cell is left exactly
as it was — storage is not rewritten. -/
theorem seed_in_memory_only_on_corrupt_key :
    ∀ (T : Type) (fallback : List T),
      loadCollection Cell.corrupt fallback = (fallback, Cell.corrupt) :=
  fun _ _ => rfl

/-- C7: persisting a collection and loading it back returns the very same
records, and the JSON marshalling underneath is lossless for each of the
five entity types: decoding the encoded collection yields a field-for-field
equal collection. -/
theorem persist_then_load_roundtrip :
    (∀ (T : Type) (fallback l : List T),
      loadCollection (persistCollection l) fallback
        = (l, persistCollection l))
    ∧ (∀ l : List Part, decList decPart (encList encPart l) = some l)
    ∧ (∀ l : List Revision,
        decList decRevision (encList encRevision l) = some l)
    ∧ (∀ l : List TeamMember,
        decList decTeamMember (encList encTeamMember l) = some l)
    ∧ (∀ l : List Client, decList decClient (encList encClient l) = some l)
    ∧ (∀ l : List Supplier,
        decList decSupplier (encList encSupplier l) = some l) :=
  ⟨fun _ _ _ => rfl,
    fun l => decodeAll_map_enc decPart_encPart l,
    fun l => decodeAll_map_enc decRevision_encRevision l,
    fun l => decodeAll_map_enc decTeamMember_encTeamMember l,
    fun l => decodeAll_map_enc decClient_encClient l,
    fun l => decodeAll_map_enc decSupplier_encSupplier l⟩

/-- C8: in every state reachable from a duplicate-free initial state (such
as the seeds) by create, update, and delete steps — with `generateId()`
producing fresh values — identities stay unique within each collection;
moreover no update ever changes the sequence of identities, so identities
are assigned only at creation and are immutable. -/
theorem identities_unique_and_immutable :
    (∀ init s : List Part, Relation.ReflTransGen PartStep init s →
      (init.map Part.id).Nodup → (s.map Part.id).Nodup)
    ∧ (∀ init s : List Revision, Relation.ReflTransGen RevisionStep init s →
      (init.map Revision.id).Nodup → (s.map Revision.id).Nodup)
    ∧ (∀ init s : List TeamMember,
        Relation.ReflTransGen TeamMemberStep init s →
      (init.map TeamMember.id).Nodup → (s.map TeamMember.id).Nodup)
    ∧ (∀ init s : List Client, Relation.ReflTransGen ClientStep init s →
      (init.map Client.id).Nodup → (s.map Client.id).Nodup)
    ∧ (∀ init s : List Supplier, Relation.ReflTransGen SupplierStep init s →
      (init.map Supplier.id).Nodup → (s.map Supplier.id).Nodup)
    ∧ (∀ (now id : String) (input : PartUpdateInput) (s : List Part),
      (updatePart now id input s).map Part.id = s.map Part.id)
    ∧ (∀ (id : String) (input : RevisionInput) (s : List Revision),
      (updateRevision id input s).map Revision.id = s.map Revision.id)
    ∧ (∀ (id : String) (input : TeamMemberInput) (s : List TeamMember),
      (updateTeamMember id input s).map TeamMember.id
        = s.map TeamMember.id)
    ∧ (∀ (id : String) (input : ClientInput) (s : List Client),
      (updateClient id input s).map Client.id = s.map Client.id)
    ∧ (∀ (id : String) (input : SupplierInput) (s : List Supplier),
      (updateSupplier id input s).map Supplier.id = s.map Supplier.id) := by
  refine ⟨?_, ?_, ?_, ?_, ?_, updatePart_map_id, updateRevision_map_id,
    updateTeamMember_map_id, updateClient_map_id, updateSupplier_map_id⟩ <;>
    intro init s h hn
  case refine_1 =>
    induction h with
    | refl => exact hn
    | tail _ step ih => exact partStep_nodup step ih
  case refine_2 =>
    induction h with
    | refl => exact hn
    | tail _ step ih => exact revisionStep_nodup step ih
  case refine_3 =>
    induction h with
    | refl => exact hn
    | tail _ step ih => exact teamMemberStep_nodup step ih
  case refine_4 =>
    induction h with
    | refl => exact hn
    | tail _ step ih => exact clientStep_nodup step ih
  case refine_5 =>
    induction h with
    | refl => exact hn
    | tail _ step ih => exact supplierStep_nodup step ih

/-- Witness for C8: creating a part with the fresh identity "id-3" on top
of the two seeded parts keeps the identities duplicate-free. -/
theorem identities_unique_and_immutable_witness :
    ((createPart "id-3" "t3" samplePartCreateInput
        (defaultParts "id-1" "id-2" "t1" "t2")).map Part.id).Nodup :=
  identities_unique_and_immutable.1 _ _
    (Relation.ReflTransGen.single
      (PartStep.create _ "id-3" "t3" samplePartCreateInput (by decide)))
    (by decide)

/-- C9: before the bootstrap continuation runs, the store holds the empty
initial collections and is not ready; the readiness flag is false after
every proper prefix of the continuation's six state updates and becomes
true only in the final update, by which point all five collections hold
their loaded results. -/
theorem ready_only_after_all_collections_loaded :
    ∀ (lp : List Part) (lr : List Revision) (lt : List TeamMember)
      (lc : List Client) (ls : List Supplier),
    (initialState.isReady = false ∧ initialState.parts = [] ∧
      initialState.revisions = [] ∧ initialState.team = [] ∧
      initialState.clients = [] ∧ initialState.suppliers = [])
    ∧ (∀ n : Nat, n < 6 →
        (bootStateAfter lp lr lt lc ls n).isReady = false)
    ∧ (∀ n : Nat, (bootStateAfter lp lr lt lc ls n).isReady = true →
        (bootStateAfter lp lr lt lc ls n).parts = lp ∧
        (bootStateAfter lp lr lt lc ls n).revisions = lr ∧
        (bootStateAfter lp lr lt lc ls n).team = lt ∧
        (bootStateAfter lp lr lt lc ls n).clients = lc ∧
        (bootStateAfter lp lr lt lc ls n).suppliers = ls)
    ∧ bootStateAfter lp lr lt lc ls 6 =
        { isReady := true, parts := lp, revisions := lr, team := lt,
          clients := lc, suppliers := ls } := by
  intro lp lr lt lc ls
  have hlt : ∀ n : Nat, n < 6 →
      (bootStateAfter lp lr lt lc ls n).isReady = false := by
    intro n hn
    interval_cases n <;> rfl
  have hfull : ∀ n : Nat, 6 ≤ n →
      bootStateAfter lp lr lt lc ls n = bootStateAfter lp lr lt lc ls 6 := by
    intro n hge
    unfold bootStateAfter
    rw [List.take_of_length_le
        (show (bootUpdates lp lr lt lc ls).length ≤ n from hge),
      List.take_of_length_le
        (show (bootUpdates lp lr lt lc ls).length ≤ 6 from le_refl _)]
  refine ⟨⟨rfl, rfl, rfl, rfl, rfl, rfl⟩, hlt, ?_, rfl⟩
  intro n hn
  rcases Nat.lt_or_ge n 6 with hcase | hcase
  · rw [hlt n hcase] at hn
    exact absurd hn (by simp)
  · rw [hfull n hcase]
    exact ⟨rfl, rfl, rfl, rfl, rfl⟩

/-- Witness for C9: with empty load results, the state after five updates
is still not ready, and in the ready state after all six updates the parts
collection holds its loaded result. -/
theorem ready_only_after_all_collections_loaded_witness :
    (bootStateAfter [] [] [] [] [] 5).isReady = false ∧
    (bootStateAfter [] [] [] [] [] 6).parts = [] :=
  ⟨(ready_only_after_all_collections_loaded [] [] [] [] []).2.1 5
      (by omega),
    ((ready_only_after_all_collections_loaded [] [] [] [] []).2.2.1 6
      rfl).1⟩

end RedCar
